import Mathlib

/-!
Verification of the portfolio statistics engine and its satellite components
of a client-side financial dashboard.

The quantitative core lives in three script functions:

* calculatePortfolioMetrics - combines per-asset-class slider weights and the
  static assumption tables (and the counts of user-selected stock / crypto
  instruments) into an expected return, a variance, a volatility and a Sharpe
  ratio, plus a ten-year hero projection;
* buildPortfolioCharts - the deterministic growth series and the Monte Carlo
  fan (30 random paths of 11 yearly points);
* buildNewsFeed - the news feed with a hardcoded sample-article fallback.

The quote/history cache described by the design document is not present in
the shipped source; it is modelled from the specification text and marked as
such below.

All arithmetic is embedded over exact fields: slider weights are integers,
the aggregate expected return and variance live in the rationals, and square
roots (volatility, Sharpe ratio) live in the reals.
-/

namespace InvestIQ

/-- Static per-class assumption table indexed by the four asset classes,
mirroring the record literals of the source. -/
structure AssetTable where
  stocks : ℚ
  reits : ℚ
  bonds : ℚ
  crypto : ℚ
deriving DecidableEq

/-- Source constant expectedReturns: stocks 10.5, reits 8.0, bonds 3.5,
crypto 45.0 (percent units). -/
def expectedReturns : AssetTable := ⟨10.5, 8.0, 3.5, 45.0⟩

/-- Source constant volatilities: stocks 15, reits 12, bonds 5, crypto 75
(percent units). -/
def volatilities : AssetTable := ⟨15, 12, 5, 75⟩

/-- AllocationState: one integer slider weight per asset class. The source
never enforces that the four weights sum to 100. -/
structure AllocationState where
  stocks : ℤ
  reits : ℤ
  bonds : ℤ
  crypto : ℤ
deriving DecidableEq

/-- Source constant allocations, the default slider state. -/
def allocationsDefault : AllocationState := ⟨40, 20, 30, 10⟩

/-- Risk-free rate rf = 2.5 used by the Sharpe ratio (percent units). -/
def riskFreeRate : ℚ := 2.5

/-- One asset class contribution to exp in calculatePortfolioMetrics.
With n selected instruments the loop adds eachWeight * return once per
selection where eachWeight = w / n; with no selections it adds w * return
once. The repeated additions of the selections.forEach loop are embedded as
the sum of a replicated list. -/
def classReturn (w ret : ℚ) (n : ℕ) : ℚ :=
  if 0 < n then (List.replicate n (w / n * ret)).sum else w * ret

/-- One asset class contribution to variance in calculatePortfolioMetrics:
the loop adds (eachWeight * volatility)^2 once per selection, or
(w * volatility)^2 with no selections. -/
def classVariance (w vol : ℚ) (n : ℕ) : ℚ :=
  if 0 < n then (List.replicate n ((w / n * vol) ^ 2)).sum else (w * vol) ^ 2

/-- Weight of a class as used by the source: allocations[asset] / 100. -/
def classWeight (w : ℤ) : ℚ := (w : ℚ) / 100

/-- Aggregate expected return exp of calculatePortfolioMetrics. The source
iterates the classes in order stocks, reits, bonds, crypto; only stocks and
crypto can carry selections (nStocks, nCrypto selected instruments). -/
def expReturn (a : AllocationState) (nStocks nCrypto : ℕ) : ℚ :=
  classReturn (classWeight a.stocks) expectedReturns.stocks nStocks
    + classReturn (classWeight a.reits) expectedReturns.reits 0
    + classReturn (classWeight a.bonds) expectedReturns.bonds 0
    + classReturn (classWeight a.crypto) expectedReturns.crypto nCrypto

/-- Aggregate variance of calculatePortfolioMetrics. -/
def variance (a : AllocationState) (nStocks nCrypto : ℕ) : ℚ :=
  classVariance (classWeight a.stocks) volatilities.stocks nStocks
    + classVariance (classWeight a.reits) volatilities.reits 0
    + classVariance (classWeight a.bonds) volatilities.bonds 0
    + classVariance (classWeight a.crypto) volatilities.crypto nCrypto

/-- Aggregate volatility: sigma = Math.sqrt(variance). -/
noncomputable def volatility (a : AllocationState) (nStocks nCrypto : ℕ) : ℝ :=
  Real.sqrt ((variance a nStocks nCrypto : ℚ) : ℝ)

/-- Sharpe ratio: sigma > 0 ? (exp - rf) / sigma : 0. -/
noncomputable def sharpe (a : AllocationState) (nStocks nCrypto : ℕ) : ℝ :=
  if 0 < volatility a nStocks nCrypto then
    (((expReturn a nStocks nCrypto : ℚ) : ℝ) - ((riskFreeRate : ℚ) : ℝ))
      / volatility a nStocks nCrypto
  else 0

/-! Basic closed forms for the class contributions. -/

theorem classReturn_eq (w ret : ℚ) (n : ℕ) : classReturn w ret n = w * ret := by
  unfold classReturn
  rcases Nat.eq_zero_or_pos n with h | h
  · simp [h]
  · have hn : (n : ℚ) ≠ 0 := Nat.cast_ne_zero.mpr (Nat.not_eq_zero_of_lt h)
    rw [if_pos h, List.sum_replicate, nsmul_eq_mul]
    field_simp

theorem classVariance_eq (w vol : ℚ) (n : ℕ) :
    classVariance w vol n = if 0 < n then (w * vol) ^ 2 / n else (w * vol) ^ 2 := by
  unfold classVariance
  rcases Nat.eq_zero_or_pos n with h | h
  · simp [h]
  · have hn : (n : ℚ) ≠ 0 := Nat.cast_ne_zero.mpr (Nat.not_eq_zero_of_lt h)
    rw [if_pos h, if_pos h, List.sum_replicate, nsmul_eq_mul]
    field_simp
    ring

theorem classVariance_nonneg (w vol : ℚ) (n : ℕ) : 0 ≤ classVariance w vol n := by
  rw [classVariance_eq]
  split
  · positivity
  · positivity

theorem variance_nonneg (a : AllocationState) (nStocks nCrypto : ℕ) :
    0 ≤ variance a nStocks nCrypto := by
  unfold variance
  have h1 := classVariance_nonneg (classWeight a.stocks) volatilities.stocks nStocks
  have h2 := classVariance_nonneg (classWeight a.reits) volatilities.reits 0
  have h3 := classVariance_nonneg (classWeight a.bonds) volatilities.bonds 0
  have h4 := classVariance_nonneg (classWeight a.crypto) volatilities.crypto nCrypto
  linarith

theorem expReturn_eq (a : AllocationState) (nStocks nCrypto : ℕ) :
    expReturn a nStocks nCrypto =
      classWeight a.stocks * expectedReturns.stocks
        + classWeight a.reits * expectedReturns.reits
        + classWeight a.bonds * expectedReturns.bonds
        + classWeight a.crypto * expectedReturns.crypto := by
  unfold expReturn
  rw [classReturn_eq, classReturn_eq, classReturn_eq, classReturn_eq]

/-- The aggregate expected return never depends on how many instruments are
selected: each class contributes w * staticReturn in every case. -/
theorem expReturn_const (a : AllocationState) (nStocks nCrypto : ℕ) :
    expReturn a nStocks nCrypto = expReturn a 0 0 := by
  rw [expReturn_eq, expReturn_eq]

/-- Default-table expected return: 0.4 * 10.5 + 0.2 * 8 + 0.3 * 3.5 + 0.1 * 45. -/
theorem expReturn_default : expReturn allocationsDefault 0 0 = 11.35 := by
  rw [expReturn_eq]
  norm_num [allocationsDefault, expectedReturns, classWeight]

/-- Default-table variance: the exact squares
(0.4 * 15)^2 + (0.2 * 12)^2 + (0.3 * 5)^2 + (0.1 * 75)^2 = 100.26. -/
theorem variance_default : variance allocationsDefault 0 0 = 100.26 := by
  unfold variance
  rw [classVariance_eq, classVariance_eq, classVariance_eq, classVariance_eq]
  norm_num [allocationsDefault, volatilities, classWeight]

/-- C1: with weights {stocks 40, reits 20, bonds 30, crypto 10} and no live
selections, the aggregate computation yields expectedReturn = 11.35 and
variance = 100.26, hence volatility = sqrt 100.26 (between 10.01 and 10.02)
and sharpeRatio = (11.35 - 2.5) / sqrt 100.26 (between 0.883 and 0.885, so
approximately 0.884), matching the static-table-only computation. -/
theorem static_table_default_metrics :
    expReturn allocationsDefault 0 0 = 11.35
      ∧ variance allocationsDefault 0 0 = 100.26
      ∧ volatility allocationsDefault 0 0 = Real.sqrt 100.26
      ∧ 10.01 < volatility allocationsDefault 0 0
      ∧ volatility allocationsDefault 0 0 < 10.02
      ∧ sharpe allocationsDefault 0 0 = (11.35 - 2.5) / Real.sqrt 100.26
      ∧ 0.883 < sharpe allocationsDefault 0 0
      ∧ sharpe allocationsDefault 0 0 < 0.885 := by
  have hvar : ((variance allocationsDefault 0 0 : ℚ) : ℝ) = 100.26 := by
    rw [variance_default]; norm_num
  have hvol : volatility allocationsDefault 0 0 = Real.sqrt 100.26 := by
    rw [volatility, hvar]
  have hnn : (0 : ℝ) ≤ 100.26 := by norm_num
  have hsq : Real.sqrt 100.26 ^ 2 = 100.26 := Real.sq_sqrt hnn
  have hge : 0 ≤ Real.sqrt 100.26 := Real.sqrt_nonneg _
  have hlow : (10.01 : ℝ) < Real.sqrt 100.26 := by nlinarith
  have hhigh : Real.sqrt 100.26 < 10.02 := by nlinarith
  have hpos : 0 < volatility allocationsDefault 0 0 := by
    rw [hvol]; linarith
  have hsh : sharpe allocationsDefault 0 0 = (11.35 - 2.5) / Real.sqrt 100.26 := by
    rw [sharpe, if_pos hpos, hvol, expReturn_default]
    norm_num [riskFreeRate]
  refine ⟨expReturn_default, variance_default, hvol, ?_, ?_, hsh, ?_, ?_⟩
  · rw [hvol]; exact hlow
  · rw [hvol]; exact hhigh
  · rw [hsh]
    rw [lt_div_iff₀ (by linarith)]
    nlinarith
  · rw [hsh]
    rw [div_lt_iff₀ (by linarith)]
    nlinarith

theorem volatility_nonneg (a : AllocationState) (nStocks nCrypto : ℕ) :
    0 ≤ volatility a nStocks nCrypto :=
  Real.sqrt_nonneg _

/-- C6: on every AllocationState, including integer weights whose total is
not 100, the aggregate computation is a total function producing numeric
outputs: the variance is nonnegative and the volatility is nonnegative with
square equal to the variance. -/
theorem aggregate_total_on_any_weights (a : AllocationState) (nStocks nCrypto : ℕ) :
    0 ≤ variance a nStocks nCrypto
      ∧ 0 ≤ volatility a nStocks nCrypto
      ∧ volatility a nStocks nCrypto ^ 2 = ((variance a nStocks nCrypto : ℚ) : ℝ) := by
  refine ⟨variance_nonneg a nStocks nCrypto, volatility_nonneg a nStocks nCrypto, ?_⟩
  unfold volatility
  exact Real.sq_sqrt (by exact_mod_cast variance_nonneg a nStocks nCrypto)

/-- C3 counterexample: sharpeRatio can be 0 while volatility is nonzero.
With weights {stocks 4, reits 5, bonds 48, crypto 0} and no selections the
expected return is exactly the risk-free rate 2.5, so the Sharpe ratio is 0
although the volatility is sqrt 6.48, which is not 0. -/
theorem sharpe_zero_with_positive_volatility :
    sharpe ⟨4, 5, 48, 0⟩ 0 0 = 0 ∧ volatility ⟨4, 5, 48, 0⟩ 0 0 ≠ 0 := by
  have hexp : expReturn ⟨4, 5, 48, 0⟩ 0 0 = riskFreeRate := by
    rw [expReturn_eq]
    norm_num [expectedReturns, classWeight, riskFreeRate]
  have hvar : variance ⟨4, 5, 48, 0⟩ 0 0 = 6.48 := by
    unfold variance
    simp only [classVariance_eq]
    norm_num [volatilities, classWeight]
  constructor
  · unfold sharpe
    rw [hexp]
    simp
  · unfold volatility
    rw [hvar]
    have : (0 : ℝ) < Real.sqrt ((6.48 : ℚ) : ℝ) :=
      Real.sqrt_pos.mpr (by norm_num)
    exact this.ne'

/-- C3 (amended): the Sharpe ratio is 0 exactly when the volatility is 0 or
the expected return equals the risk-free rate 2.5; in particular volatility
0 always forces a Sharpe ratio of 0, but a zero Sharpe ratio does not force
zero volatility. -/
theorem sharpe_zero_iff_vol_zero_or_exp_rf (a : AllocationState) (nStocks nCrypto : ℕ) :
    sharpe a nStocks nCrypto = 0
      ↔ (volatility a nStocks nCrypto = 0
          ∨ expReturn a nStocks nCrypto = riskFreeRate) := by
  unfold sharpe
  by_cases h : 0 < volatility a nStocks nCrypto
  · rw [if_pos h, div_eq_zero_iff]
    constructor
    · rintro (he | hv)
      · refine Or.inr ?_
        have hc : ((expReturn a nStocks nCrypto : ℚ) : ℝ) = ((riskFreeRate : ℚ) : ℝ) := by
          linarith
        exact_mod_cast hc
      · exact Or.inl hv
    · rintro (hv | he)
      · exact Or.inr hv
      · refine Or.inl ?_
        have hc : ((expReturn a nStocks nCrypto : ℚ) : ℝ) = ((riskFreeRate : ℚ) : ℝ) := by
          exact_mod_cast he
        linarith
  · have h0 : volatility a nStocks nCrypto = 0 :=
      le_antisymm (not_lt.mp h) (volatility_nonneg a nStocks nCrypto)
    rw [if_neg h]
    simp [h0]

theorem classVariance_pos_lt (w vol : ℚ) (hwv : w * vol ≠ 0) (n m : ℕ)
    (hn : 1 ≤ n) (hnm : n < m) :
    classVariance w vol m < classVariance w vol n := by
  rw [classVariance_eq, classVariance_eq,
    if_pos (lt_of_lt_of_le Nat.zero_lt_one hn),
    if_pos (lt_of_le_of_lt (le_of_lt (lt_of_lt_of_le Nat.zero_lt_one hn)) hnm)]
  have hpos : 0 < (w * vol) ^ 2 := (sq_nonneg _).lt_of_ne (Ne.symm (pow_ne_zero 2 hwv))
  have hn0 : (0 : ℚ) < n := by exact_mod_cast lt_of_lt_of_le Nat.zero_lt_one hn
  have hcast : (n : ℚ) < m := by exact_mod_cast hnm
  exact div_lt_div_of_pos_left hpos hn0 hcast

theorem variance_strict_anti_stocks (a : AllocationState) (nS nS2 nC : ℕ)
    (hw : a.stocks ≠ 0) (h1 : 1 ≤ nS) (h2 : nS < nS2) :
    variance a nS2 nC < variance a nS nC := by
  unfold variance
  have hwv : classWeight a.stocks * volatilities.stocks ≠ 0 := by
    apply mul_ne_zero
    · unfold classWeight
      simp [hw]
    · norm_num [volatilities]
  have key := classVariance_pos_lt (classWeight a.stocks) volatilities.stocks hwv nS nS2 h1 h2
  linarith

theorem variance_strict_anti_crypto (a : AllocationState) (nS nC nC2 : ℕ)
    (hw : a.crypto ≠ 0) (h1 : 1 ≤ nC) (h2 : nC < nC2) :
    variance a nS nC2 < variance a nS nC := by
  unfold variance
  have hwv : classWeight a.crypto * volatilities.crypto ≠ 0 := by
    apply mul_ne_zero
    · unfold classWeight
      simp [hw]
    · norm_num [volatilities]
  have key := classVariance_pos_lt (classWeight a.crypto) volatilities.crypto hwv nC nC2 h1 h2
  linarith

theorem volatility_lt_of_variance_lt (a : AllocationState) {nS nC nS2 nC2 : ℕ}
    (h : variance a nS2 nC2 < variance a nS nC) :
    volatility a nS2 nC2 < volatility a nS nC := by
  unfold volatility
  apply Real.sqrt_lt_sqrt
  · exact_mod_cast variance_nonneg a nS2 nC2
  · exact_mod_cast h

/-- C7 counterexample: selecting more instruments does not always strictly
decrease the reported volatility. With a stocks weight of 0, going from one
selected stock to two leaves the volatility unchanged. -/
theorem volatility_unchanged_zero_weight :
    volatility ⟨0, 20, 30, 10⟩ 2 0 = volatility ⟨0, 20, 30, 10⟩ 1 0 := by
  have hv : variance ⟨0, 20, 30, 10⟩ 2 0 = variance ⟨0, 20, 30, 10⟩ 1 0 := by
    unfold variance
    simp only [classVariance_eq]
    norm_num [classWeight]
  unfold volatility
  rw [hv]

/-- C7 (amended): a class with n selected instruments uses only the static
per-class table: its expected-return contribution is w * staticReturn, the
same as with no selections, and its variance contribution is
(w * staticVol) ^ 2 / n. Hence selecting more instruments leaves the
expected return unchanged and strictly decreases the reported volatility
whenever the class has nonzero weight (with weight 0 the volatility is
merely unchanged). -/
theorem selection_split_static_table (a : AllocationState) (nS nS2 nC nC2 : ℕ) :
    expReturn a nS nC = expReturn a 0 0
      ∧ (1 ≤ nS → classVariance (classWeight a.stocks) volatilities.stocks nS
            = (classWeight a.stocks * volatilities.stocks) ^ 2 / nS)
      ∧ (1 ≤ nC → classVariance (classWeight a.crypto) volatilities.crypto nC
            = (classWeight a.crypto * volatilities.crypto) ^ 2 / nC)
      ∧ (a.stocks ≠ 0 → 1 ≤ nS → nS < nS2 →
            volatility a nS2 nC < volatility a nS nC)
      ∧ (a.crypto ≠ 0 → 1 ≤ nC → nC < nC2 →
            volatility a nS nC2 < volatility a nS nC) := by
  refine ⟨expReturn_const a nS nC, ?_, ?_, ?_, ?_⟩
  · intro h
    rw [classVariance_eq, if_pos (lt_of_lt_of_le Nat.zero_lt_one h)]
  · intro h
    rw [classVariance_eq, if_pos (lt_of_lt_of_le Nat.zero_lt_one h)]
  · intro hw h1 h2
    exact volatility_lt_of_variance_lt a (variance_strict_anti_stocks a nS nS2 nC hw h1 h2)
  · intro hw h1 h2
    exact volatility_lt_of_variance_lt a (variance_strict_anti_crypto a nS nC nC2 hw h1 h2)

/-- C7 witness: at the default weights, splitting the stocks class over two
instruments instead of one strictly lowers the volatility, as does splitting
the crypto class, while the expected return is unchanged. -/
theorem selection_split_static_table_witness :
    expReturn allocationsDefault 1 1 = expReturn allocationsDefault 0 0
      ∧ volatility allocationsDefault 2 1 < volatility allocationsDefault 1 1
      ∧ volatility allocationsDefault 1 2 < volatility allocationsDefault 1 1 :=
  ⟨(selection_split_static_table allocationsDefault 1 2 1 2).1,
   (selection_split_static_table allocationsDefault 1 2 1 2).2.2.2.1
     (by decide) (by decide) (by decide),
   (selection_split_static_table allocationsDefault 1 2 1 2).2.2.2.2
     (by decide) (by decide) (by decide)⟩

/-! Growth and Monte Carlo projector of buildPortfolioCharts. -/

/-- Deterministic growth series of buildPortfolioCharts: for years
y = 0..10 the chart plots initial * Math.pow(1 + expVal / 100, y) with
initial = 10000 and expVal the expected return in percent. -/
noncomputable def growthSeries (expVal : ℝ) : List ℝ :=
  (List.range 11).map (fun y => 10000 * (1 + expVal / 100) ^ y)

/-- Hero figure of calculatePortfolioMetrics: with factor = 1 + exp / 100
the badge shows 10000 * Math.pow(factor, 10). -/
noncomputable def heroEquity (e : ℝ) : ℝ := 10000 * (1 + e / 100) ^ 10

/-- Per-year Monte Carlo shock of buildPortfolioCharts:
shock = sigma * 0.6 * (Math.random() * 2 - 1), where u stands for the
uniform draw returned by Math.random(). -/
noncomputable def mcShock (sigma u : ℝ) : ℝ := sigma * 0.6 * (u * 2 - 1)

/-- One Monte Carlo path: starting from value, each successive draw u
appends value *= 1 + expR + shock. The path holds the initial value plus
one point per draw. -/
noncomputable def mcPath (expR sigma value : ℝ) : List ℝ → List ℝ
  | [] => [value]
  | u :: us => value :: mcPath expR sigma (value * (1 + expR + mcShock sigma u)) us

/-- The Monte Carlo fan: 30 paths, each driven by nYears = 10 draws,
starting at 10000. The random source is abstracted as the function rand
giving the draw used by path p at year t. -/
noncomputable def mcPaths (expR sigma : ℝ) (rand : Fin 30 → Fin 10 → ℝ) :
    List (List ℝ) :=
  (List.finRange 30).map
    (fun p => mcPath expR sigma 10000 ((List.finRange 10).map (rand p)))

theorem mcPath_length (expR sigma value : ℝ) (us : List ℝ) :
    (mcPath expR sigma value us).length = us.length + 1 := by
  induction us generalizing value with
  | nil => rfl
  | cons u us ih => simp [mcPath, ih]

theorem mcPath_getD_zero (expR sigma value : ℝ) (us : List ℝ) :
    (mcPath expR sigma value us).getD 0 0 = value := by
  cases us <;> rfl

theorem mcPath_step (expR sigma value : ℝ) (us : List ℝ) (i : ℕ)
    (hi : i < us.length) :
    (mcPath expR sigma value us).getD (i + 1) 0
      = (mcPath expR sigma value us).getD i 0
          * (1 + expR + mcShock sigma (us.getD i 0)) := by
  induction us generalizing value i with
  | nil => exact absurd hi (Nat.not_lt_zero i)
  | cons u us ih =>
      cases i with
      | zero =>
          simp only [mcPath, List.getD_cons_succ, List.getD_cons_zero]
          rw [mcPath_getD_zero]
      | succ j =>
          simp only [mcPath, List.getD_cons_succ]
          exact ih _ j (Nat.lt_of_succ_lt_succ hi)

theorem mcPath_sigma_zero (expR value : ℝ) (us : List ℝ) :
    mcPath expR 0 value us
      = (List.range (us.length + 1)).map (fun i => value * (1 + expR) ^ i) := by
  induction us generalizing value with
  | nil =>
      rw [mcPath]
      rw [show List.range (List.length [] + 1) = [0] from rfl]
      simp
  | cons u us ih =>
      have hshock : mcShock 0 u = 0 := by simp [mcShock]
      rw [mcPath, hshock, add_zero, ih, List.length_cons]
      conv_rhs => rw [List.range_succ_eq_map]
      rw [List.map_cons, List.map_map]
      congr 1
      · simp
      · refine List.map_congr_left ?_
        intro i _
        simp only [Function.comp_apply, pow_succ]
        ring

theorem mcPaths_getD (expR sigma : ℝ) (rand : Fin 30 → Fin 10 → ℝ) (p : Fin 30) :
    (mcPaths expR sigma rand).getD p []
      = mcPath expR sigma 10000 ((List.finRange 10).map (rand p)) := by
  unfold mcPaths
  have hp : (p : ℕ) < ((List.finRange 30).map
      (fun p => mcPath expR sigma 10000 ((List.finRange 10).map (rand p)))).length := by
    simp [p.isLt]
  rw [List.getD_eq_getElem _ _ hp]
  simp

theorem finRange_map_getD (rand : Fin 10 → ℝ) (t : Fin 10) :
    ((List.finRange 10).map rand).getD t 0 = rand t := by
  have ht : (t : ℕ) < ((List.finRange 10).map rand).length := by simp [t.isLt]
  rw [List.getD_eq_getElem _ _ ht]
  simp

/-- C2 counterexample: the claimed update rule shock = sigma * uniform(-1,1)
does not hold on the code. With expR = 0, sigma = 1 and a single uniform
draw u = 3/4, the code produces 10000 * (1 + 0.6 * (1/2)) = 13000 at year 1,
not 10000 * (1 + 1 * (2 * (3/4) - 1)) = 15000 as the claim would demand. -/
theorem monte_carlo_claimed_shock_refuted :
    (mcPath 0 1 10000 [(3 : ℝ) / 4]).getD 1 0
      ≠ 10000 * (1 + 0 + 1 * ((3 : ℝ) / 4 * 2 - 1)) := by
  simp only [mcPath, mcShock, List.getD_cons_succ, List.getD_cons_zero]
  norm_num

/-- C2 (amended): the stochastic projector produces exactly 30 sample paths
of 11 points each, each starting at 10000, with per-year update rule
value *= (1 + r + shock) where shock = 0.6 * volatility_fraction *
uniform(-1, 1) - the code damps the uniform shock by the factor 0.6. -/
theorem monte_carlo_shape (expR sigma : ℝ) (rand : Fin 30 → Fin 10 → ℝ) :
    (mcPaths expR sigma rand).length = 30
      ∧ (∀ p : Fin 30, ((mcPaths expR sigma rand).getD p []).length = 11)
      ∧ (∀ p : Fin 30, ((mcPaths expR sigma rand).getD p []).getD 0 0 = 10000)
      ∧ (∀ p : Fin 30, ∀ t : Fin 10,
          ((mcPaths expR sigma rand).getD p []).getD ((t : ℕ) + 1) 0
            = ((mcPaths expR sigma rand).getD p []).getD (t : ℕ) 0
                * (1 + expR + sigma * 0.6 * (rand p t * 2 - 1))) := by
  refine ⟨by simp [mcPaths], ?_, ?_, ?_⟩
  · intro p
    rw [mcPaths_getD, mcPath_length]
    simp
  · intro p
    rw [mcPaths_getD, mcPath_getD_zero]
  · intro p t
    rw [mcPaths_getD]
    have ht : (t : ℕ) < ((List.finRange 10).map (rand p)).length := by
      simp [t.isLt]
    rw [mcPath_step _ _ _ _ _ ht, finRange_map_getD]
    rfl

/-- C4: when the aggregate volatility is 0 every Monte Carlo shock vanishes,
so the 30 stochastic paths are all identical and pointwise equal to the
deterministic projector series for the same expected return (the code feeds
expR = expVal / 100 to the stochastic projector and expVal, in percent, to
the deterministic one). -/
theorem monte_carlo_zero_volatility (expVal : ℝ) (rand : Fin 30 → Fin 10 → ℝ) :
    mcPaths (expVal / 100) 0 rand = List.replicate 30 (growthSeries expVal) := by
  refine List.eq_replicate_iff.mpr ⟨by simp [mcPaths], ?_⟩
  intro path hpath
  obtain ⟨p, _, rfl⟩ := List.mem_map.mp hpath
  rw [mcPath_sigma_zero, growthSeries]
  simp

theorem growthSeries_getD (expVal : ℝ) (y : ℕ) (hy : y < 11) :
    (growthSeries expVal).getD y 0 = 10000 * (1 + expVal / 100) ^ y := by
  unfold growthSeries
  have h : y < ((List.range 11).map
      (fun i => 10000 * (1 + expVal / 100) ^ i)).length := by simpa using hy
  rw [List.getD_eq_getElem _ _ h]
  simp

/-- C5: the deterministic projector produces exactly the 11-point series
value[y] = 10000 * (1 + r / 100) ^ y for y = 0..10, and the hero figure of
the aggregator equals 10000 * (1 + r / 100) ^ 10, the year-10 point of that
series. -/
theorem growth_series_and_hero (expVal : ℝ) :
    (growthSeries expVal).length = 11
      ∧ (∀ y : Fin 11, (growthSeries expVal).getD (y : ℕ) 0
            = 10000 * (1 + expVal / 100) ^ (y : ℕ))
      ∧ heroEquity expVal = 10000 * (1 + expVal / 100) ^ 10
      ∧ (growthSeries expVal).getD 10 0 = heroEquity expVal := by
  refine ⟨by simp [growthSeries], ?_, rfl, ?_⟩
  · intro y
    exact growthSeries_getD expVal y y.isLt
  · rw [growthSeries_getD expVal 10 (by norm_num), heroEquity]

/-! Quote/History Cache. The shipped source contains no quote cache or
history-statistics code (only the static assumption tables are used by the
aggregator), so the definitions of this section are modelled from the
specification text of the cache component. -/

/-- Quote record: price, change percent and absolute change. -/
structure Quote where
  price : ℚ
  changePercent : ℚ
  changeAbsolute : ℚ
deriving DecidableEq

/-- Modelled from the spec: quote TTL of 60 seconds. The quote cache itself
is absent from the shipped source. -/
def QUOTE_TTL : ℕ := 60

/-- Modelled from the spec: the session-wide cache map, keyed by symbol,
holding the last Quote and its fetch timestamp. Absent from the shipped
source. -/
structure QuoteCache where
  entry : String → Option (Quote × ℕ)

/-- The cache at page load: no entries. -/
def emptyQuoteCache : QuoteCache := ⟨fun _ => none⟩

/-- Modelled from the spec: the miss/stale path of getQuote. One external
request is issued (the third component counts network calls); on success
the result is stored with its timestamp and returned, on failure the call
returns unavailable and the cache is unchanged. Absent from the shipped
source. -/
def refreshQuote (fetch : String → ℕ → Option Quote) (cache : QuoteCache)
    (sym : String) (now : ℕ) : Option Quote × QuoteCache × ℕ :=
  match fetch sym now with
  | some q => (some q, ⟨fun s => if s = sym then some (q, now) else cache.entry s⟩, 1)
  | none => (none, cache, 1)

/-- Modelled from the spec: getQuote consults the cache first; a hit whose
age is below the TTL is returned with no network call, otherwise the entry
is refreshed. Absent from the shipped source. -/
def getQuote (fetch : String → ℕ → Option Quote) (cache : QuoteCache)
    (sym : String) (now : ℕ) : Option Quote × QuoteCache × ℕ :=
  match cache.entry sym with
  | some (q, ts) =>
      if now - ts < QUOTE_TTL then (some q, cache, 0)
      else refreshQuote fetch cache sym now
  | none => refreshQuote fetch cache sym now

/-- C8: a getQuote call on a cold cache followed by a second call on the
same symbol within the TTL performs exactly one network request in total
(the second call hits the cache) and both calls return the identical quote.
Modelled from the spec, as the cache is absent from the shipped source. -/
theorem getQuote_second_call_cached (fetch : String → ℕ → Option Quote)
    (sym : String) (t0 t1 : ℕ) (q : Quote)
    (hf : fetch sym t0 = some q) (_h01 : t0 ≤ t1) (hTTL : t1 - t0 < QUOTE_TTL) :
    (getQuote fetch emptyQuoteCache sym t0).1 = some q
      ∧ (getQuote fetch (getQuote fetch emptyQuoteCache sym t0).2.1 sym t1).1 = some q
      ∧ (getQuote fetch emptyQuoteCache sym t0).2.2
          + (getQuote fetch (getQuote fetch emptyQuoteCache sym t0).2.1 sym t1).2.2 = 1 := by
  have hfirst : getQuote fetch emptyQuoteCache sym t0
      = (some q, ⟨fun s => if s = sym then some (q, t0) else none⟩, 1) := by
    unfold getQuote refreshQuote emptyQuoteCache
    rw [hf]
  have hsecond :
      (getQuote fetch (getQuote fetch emptyQuoteCache sym t0).2.1 sym t1).1 = some q
        ∧ (getQuote fetch (getQuote fetch emptyQuoteCache sym t0).2.1 sym t1).2.2 = 0 := by
    rw [hfirst]
    unfold getQuote
    simp [hTTL]
  refine ⟨by rw [hfirst], hsecond.1, ?_⟩
  rw [hsecond.2, hfirst]

/-- C8 witness: with a fetch oracle answering the quote 101 / 2 / 1, a call
at time 0 and a second call at time 30 on symbol AAPL return the same quote
with one network request in total. -/
theorem getQuote_second_call_cached_witness :
    (getQuote (fun _ _ => some ⟨101, 2, 1⟩) emptyQuoteCache "AAPL" 0).1 = some ⟨101, 2, 1⟩
      ∧ (getQuote (fun _ _ => some ⟨101, 2, 1⟩)
          (getQuote (fun _ _ => some ⟨101, 2, 1⟩) emptyQuoteCache "AAPL" 0).2.1
          "AAPL" 30).1 = some ⟨101, 2, 1⟩
      ∧ (getQuote (fun _ _ => some ⟨101, 2, 1⟩) emptyQuoteCache "AAPL" 0).2.2
          + (getQuote (fun _ _ => some ⟨101, 2, 1⟩)
              (getQuote (fun _ _ => some ⟨101, 2, 1⟩) emptyQuoteCache "AAPL" 0).2.1
              "AAPL" 30).2.2 = 1 :=
  getQuote_second_call_cached (fun _ _ => some ⟨101, 2, 1⟩) "AAPL" 0 30 ⟨101, 2, 1⟩
    rfl (by decide) (by decide)

/-! Statistics engine and history fallback, modelled from the spec: no
history-fetch or log-return code exists in the shipped source. -/

/-- History statistics surfaced to the aggregator: annualized volatility and
return, as fractions. -/
structure HistoryStats where
  annualVolatility : ℝ
  annualReturn : ℝ

/-- Modelled from the spec: the fixed fallback statistics
annualVolatility 0.20, annualReturn 0.08 used when the history fetch fails.
Absent from the shipped source. -/
def fallbackStats : HistoryStats := ⟨0.20, 0.08⟩

/-- Modelled from the spec: daily log returns ln(close[i] / close[i-1]) of
an ordered closing-price series. Absent from the shipped source. -/
noncomputable def logReturns (closes : List ℝ) : List ℝ :=
  (closes.zip closes.tail).map (fun pr => Real.log (pr.2 / pr.1))

/-- Modelled from the spec: sample statistics of a price series - mean log
return, sample variance with the n-1 denominator, daily volatility as its
square root, annualization by sqrt 252 and by compounding over 252 days.
Absent from the shipped source. -/
noncomputable def sampleStats (closes : List ℝ) : HistoryStats :=
  let rs := logReturns closes
  let n : ℝ := rs.length
  let mean := rs.sum / n
  let sampleVariance := ((rs.map (fun r => (r - mean) ^ 2)).sum) / (n - 1)
  let dailyVol := Real.sqrt sampleVariance
  ⟨dailyVol * Real.sqrt 252, (1 + mean) ^ (252 : ℕ) - 1⟩

/-- Modelled from the spec: getHistory returns the computed statistics on a
successful fetch with at least two closes, and the fixed fallback both on
fetch failure (none, covering network errors and malformed payloads) and on
insufficient data. It is a total function: no exception can propagate.
Absent from the shipped source. -/
noncomputable def getHistory (fetched : Option (List ℝ)) : HistoryStats :=
  match fetched with
  | none => fallbackStats
  | some closes => if closes.length < 2 then fallbackStats else sampleStats closes

/-- C9: whenever the historical-price fetch fails, getHistory returns the
fixed fallback statistics annualVolatility 0.20 and annualReturn 0.08; being
a total function into HistoryStats it can never propagate an exception.
Modelled from the spec, as the history code is absent from the shipped
source. -/
theorem getHistory_failure_fallback :
    getHistory none = fallbackStats
      ∧ fallbackStats.annualVolatility = 0.20
      ∧ fallbackStats.annualReturn = 0.08 :=
  ⟨rfl, rfl, rfl⟩

/-! News feed fallback of buildNewsFeed. -/

/-- Article record as rendered by the news feed. The publishedAt field of
the source is wall-clock derived and not modelled. -/
structure Article where
  title : String
  description : String
  url : String
  sourceName : String
deriving DecidableEq

/-- The hardcoded fallback sample articles of buildNewsFeed. -/
def sampleArticles : List Article :=
  [⟨"Federal Reserve Signals Potential Rate Cuts",
    "Policymakers hint that cooling inflation could justify gradual cuts, lifting risk assets as bond yields ease.",
    "https://www.example.com/fed-cuts", "Sample Financial Times"⟩,
   ⟨"Gold Holds Near Highs as Real Yields Ease",
    "Bullion prices remain supported by lower real yields and continued investor interest in safe-haven assets.",
    "https://www.example.com/gold-highs", "Sample Metals Desk"⟩,
   ⟨"AI & Chip Stocks Drive Equity Indices Higher",
    "Semiconductor names and large-cap tech continue to dominate index performance as AI spending accelerates.",
    "https://www.example.com/ai-chip-stocks", "Sample TechWire"⟩]

/-- The article list rendered by buildNewsFeed: a failed fetch (none) or a
missing articles field leaves the list empty, and an empty list is replaced
by the sample articles. -/
def buildNewsFeedArticles (fetched : Option (List Article)) : List Article :=
  let articles := fetched.getD []
  if articles.isEmpty then sampleArticles else articles

/-- C10: when the headline-news fetch fails or returns an empty result, the
news feed falls back to the hardcoded three sample articles, so the user
always sees a nonempty article list rather than merely an error message. -/
theorem news_feed_fallback :
    buildNewsFeedArticles none = sampleArticles
      ∧ buildNewsFeedArticles (some []) = sampleArticles
      ∧ sampleArticles.length = 3
      ∧ ∀ fetched, buildNewsFeedArticles fetched ≠ [] := by
  refine ⟨rfl, rfl, rfl, ?_⟩
  intro fetched
  unfold buildNewsFeedArticles
  rcases fetched with _ | articles
  · simp [sampleArticles]
  · simp only [Option.getD_some]
    rcases articles with _ | ⟨a, rest⟩
    · simp [sampleArticles]
    · simp

end InvestIQ
